import Mathlib

/-! Shallow embedding of the todo-backend asynchronous pipeline
(worker `src/worker/worker.py`, producer routes `src/api/app.py`,
producer helper `src/api/util.py`, model `src/models.py`).

Machine integers are `Int`, timestamps are `Nat` ticks of a strictly
increasing clock (each `datetime.utcnow()` call reads the clock and
advances it by one tick; `time.sleep(delay)` advances it by `delay`).
Fallible Redis writes are driven by an environment `CacheEnv` telling,
per `redis_client.set` invocation, whether that attempt raises.
-/

namespace TodoPipeline

/-- Row of the `todos` table (`src/models.py`, class `Todo`).
`title` is `Option` because the ORM object can hold `None` after a
generic `setattr`; `status`/`priority` are plain strings because every
worker write path supplies a string. Timestamps are clock ticks. -/
structure Todo where
  id : Int
  title : Option String
  description : Option String
  status : String
  priority : String
  created_at : Nat
  updated_at : Nat
  due_date : Option String
deriving Repr, DecidableEq

/-- The dictionary produced by `todo_to_dict` in `src/worker/worker.py`
(field order of the Python dict literal). -/
structure TodoDict where
  id : Int
  title : Option String
  description : Option String
  due_date : Option String
  priority : String
  status : String
  created_at : Nat
  updated_at : Nat
deriving Repr, DecidableEq

/-- Embedding of `todo_to_dict(todo)` from `src/worker/worker.py`. -/
def todo_to_dict (t : Todo) : TodoDict :=
  ⟨t.id, t.title, t.description, t.due_date, t.priority, t.status,
   t.created_at, t.updated_at⟩

/-- The durable store: rows in insertion order plus the auto-increment
counter that assigns primary keys on insert. -/
structure Store where
  todos : List Todo
  nextId : Int
deriving Repr, DecidableEq

/-- The Redis value under key `all_todos`
(`{'todos': ..., '_cached_at': ...}` in `update_all_todos_cache`). -/
structure CacheEntry where
  todos : List TodoDict
  cached_at : Nat
deriving Repr, DecidableEq

/-- Worker-side world state: store, the `all_todos` cache key (absent
when deleted / never written), the clock, and a counter of
`redis_client.set('all_todos', ...)` invocations used to index the
failure environment. -/
structure WState where
  store : Store
  cache : Option CacheEntry
  now : Nat
  cacheSetAttempts : Nat
deriving Repr, DecidableEq

/-- Decoded JSON body of a queue message. Fields are `none` when the
key is absent. `todoId`/`type` are the backward-compat aliases read
first by `process_notification`. -/
structure Envelope where
  todoId : Option Int
  todo_id : Option Int
  type : Option String
  action : Option String
  title : Option String
  description : Option String
  status : Option String
  priority : Option String
  due_date : Option String
deriving Repr, DecidableEq

/-- Python `a or b` on optional ints: `None` and `0` are falsy. -/
def pyOrInt : Option Int → Option Int → Option Int
  | none, b => b
  | some v, b => if v = 0 then b else some v

/-- Python `a or b` on optional strings: `None` and `""` are falsy. -/
def pyOrStr : Option String → Option String → Option String
  | none, b => b
  | some v, b => if v = "" then b else some v

/-- The `todo_data` dict built by `process_notification`:
`status`/`priority` get defaults when the key is absent, the rest pass
through (possibly `None`). -/
structure TodoData where
  title : Option String
  description : Option String
  status : String
  priority : String
  due_date : Option String
deriving Repr, DecidableEq

/-- Lines 140–146 of `src/worker/worker.py`. -/
def extract_todo_data (e : Envelope) : TodoData :=
  ⟨e.title, e.description, e.status.getD "pending",
   e.priority.getD "medium", e.due_date⟩

/-- Embedding of `db.query(Todo).filter(Todo.id == tid).first()`. -/
def findTodo : List Todo → Int → Option Todo
  | [], _ => none
  | t :: ts, tid => if t.id = tid then some t else findTodo ts tid

/-- Replace the first row whose id matches (the ORM mutates the row
object returned by `.first()`). -/
def replaceFirst : List Todo → Int → Todo → List Todo
  | [], _, _ => []
  | t :: ts, tid, new => if t.id = tid then new :: ts else t :: replaceFirst ts tid new

/-- Embedding of `db.delete(todo)` on the row returned by `.first()`. -/
def removeFirst : List Todo → Int → List Todo
  | [], _ => []
  | t :: ts, tid => if t.id = tid then ts else t :: removeFirst ts tid

/-- Embedding of `Todo(**todo_data)` + `db.add` + `db.commit`: the store assigns the
auto-increment id (NOT the envelope's todo_id) and the column defaults
set `created_at = updated_at = utcnow()` at tick `t`. -/
def Store.insert (st : Store) (td : TodoData) (t : Nat) : Store :=
  { todos := st.todos ++
      [⟨st.nextId, td.title, td.description, td.status, td.priority, t, t, td.due_date⟩],
    nextId := st.nextId + 1 }

/-- Embedding of `for key, value in todo_data.items(): setattr(todo, key, value)`:
every one of the five keys is assigned, absent payload fields included. -/
def applyTodoData (td : TodoData) (t : Todo) : Todo :=
  { t with title := td.title, description := td.description,
           status := td.status, priority := td.priority,
           due_date := td.due_date }

/-- Failure environment: `env i = true` means the `i`-th
`redis_client.set('all_todos', ...)` call raises. -/
def CacheEnv : Type := Nat → Bool

/-- Outcome of a cache operation: normal return or raised exception,
each carrying the (partially mutated) state — Redis has no rollback. -/
inductive CacheResult where
  | ok (s : WState)
  | err (s : WState)
deriving Repr, DecidableEq

/-- The state carried by a `CacheResult`. -/
def CacheResult.state : CacheResult → WState
  | .ok s => s
  | .err s => s

/-- Embedding of `invalidate_all_todos_cache`: `redis_client.delete('all_todos')`
(modelled as always succeeding; its failures are out of the claims'
scope). -/
def invalidate_all_todos_cache (s : WState) : WState :=
  { s with cache := none }

/-- One attempt of `update_all_todos_cache` (the decorated body):
invalidate, re-read the store, stamp `_cached_at` with a fresh
`utcnow()`, then `redis_client.set` — which raises when the
environment says so. -/
def update_all_todos_cache_body (env : CacheEnv) (s : WState) : CacheResult :=
  let s1 := invalidate_all_todos_cache s
  let todos_list := s1.store.todos.map todo_to_dict
  let t := s1.now
  let s2 : WState := { s1 with now := s1.now + 1 }
  if env s2.cacheSetAttempts then
    CacheResult.err { s2 with cacheSetAttempts := s2.cacheSetAttempts + 1 }
  else
    CacheResult.ok { s2 with cacheSetAttempts := s2.cacheSetAttempts + 1,
                             cache := some ⟨todos_list, t⟩ }

/-- The loop inside `retry_on_error`'s wrapper, with `n` attempts left:
try the body; on exception, re-raise if this was the last attempt,
otherwise `time.sleep(delay)` and retry. Zero attempts is Python's
`return None` (a normal return). -/
def retryAttempts (delay : Nat) (f : WState → CacheResult) : Nat → WState → CacheResult
  | 0, s => CacheResult.ok s
  | n + 1, s =>
    match f s with
    | CacheResult.ok s' => CacheResult.ok s'
    | CacheResult.err s' =>
      if n = 0 then CacheResult.err s'
      else retryAttempts delay f n { s' with now := s'.now + delay }

/-- Embedding of `retry_on_error(max_retries, delay)` applied to a cache operation. -/
def retry_on_error (max_retries delay : Nat) (f : WState → CacheResult)
    (s : WState) : CacheResult :=
  retryAttempts delay f max_retries s

/-- Embedding of `update_all_todos_cache` as decorated:
`@retry_on_error(max_retries=3)` with the default `delay=1`. -/
def update_all_todos_cache (env : CacheEnv) (s : WState) : CacheResult :=
  retry_on_error 3 1 (update_all_todos_cache_body env) s

/-- Result of `process_notification`: a returned boolean or a raised
exception. -/
inductive PResult where
  | ret (b : Bool)
  | raised
deriving Repr, DecidableEq

/-- Embedding of `process_notification(message)` from `src/worker/worker.py`
(lines 130–208) on an already-decoded envelope.
`int(todo_id)` with `todo_id = None` raises `TypeError`, modelled as
`PResult.raised`; committed mutations survive a later raise.
In the `todo_updated` branch, `db.commit` flushes an UPDATE only when
some `setattr` changed a column value; flushing `title = None` violates
the NOT NULL constraint on `title` (`src/models.py`, `nullable=False`;
the DDL's `title VARCHAR(...) NOT NULL`), so the commit raises
IntegrityError and the transaction rolls back, leaving the row — and
the whole state — unchanged while the exception propagates. -/
def process_notification (env : CacheEnv) (e : Envelope) (s : WState) :
    PResult × WState :=
  let todo_id := pyOrInt e.todoId e.todo_id
  let action := pyOrStr e.type e.action
  let td := extract_todo_data e
  if action = some "todo_created" then
    match todo_id with
    | none => (PResult.raised, s)
    | some tid =>
      match findTodo s.store.todos tid with
      | some _ => (PResult.ret true, s)
      | none =>
        if td.title = none ∨ td.title = some "" then
          (PResult.ret false, s)
        else
          let s1 : WState := { s with store := s.store.insert td s.now, now := s.now + 1 }
          match update_all_todos_cache env s1 with
          | CacheResult.ok s2 => (PResult.ret true, s2)
          | CacheResult.err s2 => (PResult.raised, s2)
  else if action = some "todo_updated" then
    match todo_id with
    | none => (PResult.raised, s)
    | some tid =>
      match findTodo s.store.todos tid with
      | some todo =>
        let new := applyTodoData td todo
        if new = todo then
          match update_all_todos_cache env s with
          | CacheResult.ok s2 => (PResult.ret true, s2)
          | CacheResult.err s2 => (PResult.raised, s2)
        else if new.title = none then
          (PResult.raised, s)
        else
          match update_all_todos_cache env
              { s with
                store := { s.store with
                           todos := replaceFirst s.store.todos tid
                             { new with updated_at := s.now } },
                now := s.now + 1 } with
          | CacheResult.ok s2 => (PResult.ret true, s2)
          | CacheResult.err s2 => (PResult.raised, s2)
      | none => (PResult.ret false, s)
  else if action = some "todo_deleted" then
    match todo_id with
    | none => (PResult.raised, s)
    | some tid =>
      let s1 : WState :=
        match findTodo s.store.todos tid with
        | some _ => { s with store := { s.store with todos := removeFirst s.store.todos tid } }
        | none => s
      match update_all_todos_cache env s1 with
      | CacheResult.ok s2 => (PResult.ret true, s2)
      | CacheResult.err s2 => (PResult.raised, s2)
  else
    (PResult.ret false, s)

/-- One message handling in `main`'s loop (`src/worker/worker.py`
lines 227–241): `sqs.delete_message` is called exactly when
`process_notification` returns a truthy value; a raise is caught and
the message is left on the queue. The boolean is whether the message
was deleted. -/
def worker_step (env : CacheEnv) (e : Envelope) (s : WState) : WState × Bool :=
  match process_notification env e s with
  | (PResult.ret true, s') => (s', true)
  | (PResult.ret false, s') => (s', false)
  | (PResult.raised, s') => (s', false)

/-- JSON scalar values appearing in producer messages. -/
inductive JVal where
  | null
  | int (n : Int)
  | str (s : String)
deriving Repr, DecidableEq

/-- A Python dict as an insertion-ordered association list with unique
keys (Python dicts cannot hold a key twice). -/
abbrev JDict : Type := List (String × JVal)

/-- Lookup `d[k]` (first occurrence). -/
def dget : JDict → String → Option JVal
  | [], _ => none
  | (k', v) :: rest, k => if k' = k then some v else dget rest k

/-- Assignment `d[k] = v`: replace the first binding of `k` in place, else append
— Python dict assignment on a unique-keys dict. -/
def dset : JDict → String → JVal → JDict
  | [], k, v => [(k, v)]
  | (k', v') :: rest, k, v =>
    if k' = k then (k, v) :: rest else (k', v') :: dset rest k v

/-- Update `d.update(u)`: assign every binding of `u` into `d`, in order. -/
def dupdate (d u : JDict) : JDict :=
  u.foldl (fun acc p => dset acc p.1 p.2) d

/-- The JSON message body built by `send_notification` in
`src/api/util.py` (lines 167–197): the metadata dict
`{'todo_id': ..., 'action': ..., 'timestamp': ...}` followed by
`message.update(todo_data)` when `todo_data` is truthy (`None` and the
empty dict are both modelled as `[]`). -/
def send_notification_message (todo_id : Int) (action : String)
    (todo_data : JDict) (timestamp : Nat) : JDict :=
  let message : JDict :=
    [("todo_id", JVal.int todo_id), ("action", JVal.str action),
     ("timestamp", JVal.int (Int.ofNat timestamp))]
  if todo_data = [] then message else dupdate message todo_data

/-- Producer-side world state: the same store and `all_todos` cache
key, plus the queue of enqueued message bodies and the clock. -/
structure ApiState where
  store : Store
  cache : Option CacheEntry
  queue : List JDict
  now : Nat
deriving Repr, DecidableEq

/-- Route `POST /todos` (`create_todo_route`, `src/api/app.py` lines
97–110): assign `temp_id = int(datetime.utcnow().timestamp())` and
enqueue a `todo_created` envelope carrying the client body; returns
the provisional id. -/
def create_todo_route (data : JDict) (s : ApiState) : ApiState × Int :=
  let temp_id : Int := Int.ofNat s.now
  let msg := send_notification_message temp_id "todo_created" data (s.now + 1)
  ({ s with queue := s.queue ++ [msg], now := s.now + 2 }, temp_id)

/-- Route `PUT /todos/<id>` (`update_todo_route`, lines 143–155): enqueue a
`todo_updated` envelope only. -/
def update_todo_route (todo_id : Int) (data : JDict) (s : ApiState) : ApiState :=
  let msg := send_notification_message todo_id "todo_updated" data s.now
  { s with queue := s.queue ++ [msg], now := s.now + 1 }

/-- Route `DELETE /todos/<id>` (`delete_todo_route`, lines 157–173): look the
row up and, when present, `db.delete` + `db.commit` it directly in the
route, then enqueue a `todo_deleted` envelope with no payload. -/
def delete_todo_route (todo_id : Int) (s : ApiState) : ApiState :=
  let s1 : ApiState :=
    match findTodo s.store.todos todo_id with
    | some _ => { s with store := { s.store with todos := removeFirst s.store.todos todo_id } }
    | none => s
  let msg := send_notification_message todo_id "todo_deleted" [] s1.now
  { s1 with queue := s1.queue ++ [msg], now := s1.now + 1 }

/-! Helper lemmas about the cache-refresh machinery. -/

/-- Normal form of one `update_all_todos_cache` attempt. -/
theorem update_body_spec (env : CacheEnv) (s : WState) :
    update_all_todos_cache_body env s =
      (if env s.cacheSetAttempts then
        CacheResult.err { store := s.store, cache := none, now := s.now + 1,
                          cacheSetAttempts := s.cacheSetAttempts + 1 }
       else
        CacheResult.ok { store := s.store,
                         cache := some ⟨s.store.todos.map todo_to_dict, s.now⟩,
                         now := s.now + 1,
                         cacheSetAttempts := s.cacheSetAttempts + 1 }) := rfl

/-- The retried cache refresh never changes the store, whether it
returns or raises. -/
theorem update_cache_store (env : CacheEnv) (s : WState) :
    (update_all_todos_cache env s).state.store = s.store := by
  by_cases h1 : env s.cacheSetAttempts = true <;>
  by_cases h2 : env (s.cacheSetAttempts + 1) = true <;>
  by_cases h3 : env (s.cacheSetAttempts + 2) = true <;>
  simp [update_all_todos_cache, retry_on_error, retryAttempts, update_body_spec,
        CacheResult.state, h1, h2, h3]

/-- When the retried refresh returns normally, the cache holds a
snapshot of the (unchanged) store stamped at a tick at or after the
refresh started and before the final clock. -/
theorem update_cache_ok_spec (env : CacheEnv) (s s' : WState)
    (h : update_all_todos_cache env s = CacheResult.ok s') :
    s'.store = s.store ∧
    ∃ t, s'.cache = some ⟨s.store.todos.map todo_to_dict, t⟩ ∧ s.now ≤ t ∧ t < s'.now := by
  by_cases h1 : env s.cacheSetAttempts = true
  · by_cases h2 : env (s.cacheSetAttempts + 1) = true
    · by_cases h3 : env (s.cacheSetAttempts + 2) = true
      · simp [update_all_todos_cache, retry_on_error, retryAttempts, update_body_spec,
              h1, h2, h3] at h
      · simp [update_all_todos_cache, retry_on_error, retryAttempts, update_body_spec,
              h1, h2, h3] at h
        subst h
        exact ⟨rfl, s.now + 4, rfl, by omega, by dsimp only; omega⟩
    · simp [update_all_todos_cache, retry_on_error, retryAttempts, update_body_spec,
            h1, h2] at h
      subst h
      exact ⟨rfl, s.now + 2, rfl, by omega, by dsimp only; omega⟩
  · simp [update_all_todos_cache, retry_on_error, retryAttempts, update_body_spec,
          h1] at h
    subst h
    exact ⟨rfl, s.now, rfl, by omega, by dsimp only; omega⟩

/-- When all three Redis `set` attempts fail, the refresh raises: the
store is untouched, the cache key has been deleted by the last
invalidate, the clock advanced by three `utcnow` reads, two `sleep(1)`s
and nothing else, and exactly three attempts were consumed. -/
theorem update_cache_all_fail (env : CacheEnv) (s : WState)
    (h1 : env s.cacheSetAttempts = true)
    (h2 : env (s.cacheSetAttempts + 1) = true)
    (h3 : env (s.cacheSetAttempts + 2) = true) :
    update_all_todos_cache env s =
      CacheResult.err { store := s.store, cache := none, now := s.now + 5,
                        cacheSetAttempts := s.cacheSetAttempts + 3 } := by
  simp [update_all_todos_cache, retry_on_error, retryAttempts, update_body_spec,
        h1, h2, h3]

/-! Helper lemmas about the row list. -/

theorem findTodo_append_none (l : List Todo) (tid : Int) (r : Todo)
    (h : findTodo l tid = none) :
    findTodo (l ++ [r]) tid = if r.id = tid then some r else none := by
  induction l with
  | nil => rfl
  | cons t ts ih =>
    rw [findTodo] at h
    by_cases ht : t.id = tid
    · rw [if_pos ht] at h
      exact absurd h (by simp)
    · rw [if_neg ht] at h
      simpa [findTodo, ht] using ih h

theorem findTodo_split (l : List Todo) (tid : Int) (todo new : Todo)
    (h : findTodo l tid = some todo) :
    ∃ l1 l2, l = l1 ++ todo :: l2 ∧ (∀ u ∈ l1, u.id ≠ tid) ∧ todo.id = tid ∧
      replaceFirst l tid new = l1 ++ new :: l2 := by
  induction l with
  | nil => cases h
  | cons t ts ih =>
    rw [findTodo] at h
    by_cases ht : t.id = tid
    · rw [if_pos ht] at h
      obtain rfl : t = todo := Option.some.inj h
      exact ⟨[], ts, rfl, by simp, ht, by simp [replaceFirst, ht]⟩
    · rw [if_neg ht] at h
      obtain ⟨l1, l2, hl, hl1, hid, hrep⟩ := ih h
      refine ⟨t :: l1, l2, by simp [hl], ?_, hid, by simp [replaceFirst, ht, hrep]⟩
      intro u hu
      rcases List.mem_cons.mp hu with rfl | hu
      · exact ht
      · exact hl1 u hu

/-! Branch normal forms of `process_notification`. -/

theorem process_created_no_id (env : CacheEnv) (e : Envelope) (s : WState)
    (hact : pyOrStr e.type e.action = some "todo_created")
    (hid : pyOrInt e.todoId e.todo_id = none) :
    process_notification env e s = (PResult.raised, s) := by
  simp [process_notification, hact, hid]

theorem process_created_dup (env : CacheEnv) (e : Envelope) (s : WState)
    (tid : Int) (todo : Todo)
    (hact : pyOrStr e.type e.action = some "todo_created")
    (hid : pyOrInt e.todoId e.todo_id = some tid)
    (hfind : findTodo s.store.todos tid = some todo) :
    process_notification env e s = (PResult.ret true, s) := by
  simp [process_notification, hact, hid, hfind]

theorem process_created_no_title (env : CacheEnv) (e : Envelope) (s : WState)
    (tid : Int)
    (hact : pyOrStr e.type e.action = some "todo_created")
    (hid : pyOrInt e.todoId e.todo_id = some tid)
    (hfind : findTodo s.store.todos tid = none)
    (htitle : e.title = none ∨ e.title = some "") :
    process_notification env e s = (PResult.ret false, s) := by
  rcases htitle with h | h <;>
  simp [process_notification, extract_todo_data, hact, hid, hfind, h]

theorem process_created_new (env : CacheEnv) (e : Envelope) (s : WState)
    (tid : Int)
    (hact : pyOrStr e.type e.action = some "todo_created")
    (hid : pyOrInt e.todoId e.todo_id = some tid)
    (hfind : findTodo s.store.todos tid = none)
    (htitle : ¬(e.title = none ∨ e.title = some "")) :
    process_notification env e s =
      (match update_all_todos_cache env
          { s with store := s.store.insert (extract_todo_data e) s.now,
                   now := s.now + 1 } with
       | CacheResult.ok s2 => (PResult.ret true, s2)
       | CacheResult.err s2 => (PResult.raised, s2)) := by
  rw [not_or] at htitle
  simp [process_notification, extract_todo_data, hact, hid, hfind,
        htitle.1, htitle.2]

theorem process_updated_found (env : CacheEnv) (e : Envelope) (s : WState)
    (tid : Int) (todo : Todo)
    (hact : pyOrStr e.type e.action = some "todo_updated")
    (hid : pyOrInt e.todoId e.todo_id = some tid)
    (hfind : findTodo s.store.todos tid = some todo) :
    process_notification env e s =
      (if applyTodoData (extract_todo_data e) todo = todo then
        (match update_all_todos_cache env s with
         | CacheResult.ok s2 => (PResult.ret true, s2)
         | CacheResult.err s2 => (PResult.raised, s2))
       else if (applyTodoData (extract_todo_data e) todo).title = none then
        (PResult.raised, s)
       else
        (match update_all_todos_cache env
            { s with
              store := { s.store with
                         todos := replaceFirst s.store.todos tid
                           { applyTodoData (extract_todo_data e) todo with
                             updated_at := s.now } },
              now := s.now + 1 } with
         | CacheResult.ok s2 => (PResult.ret true, s2)
         | CacheResult.err s2 => (PResult.raised, s2))) := by
  simp [process_notification, hact, hid, hfind]

theorem process_updated_missing (env : CacheEnv) (e : Envelope) (s : WState)
    (tid : Int)
    (hact : pyOrStr e.type e.action = some "todo_updated")
    (hid : pyOrInt e.todoId e.todo_id = some tid)
    (hfind : findTodo s.store.todos tid = none) :
    process_notification env e s = (PResult.ret false, s) := by
  simp [process_notification, hact, hid, hfind]

theorem process_deleted_norm (env : CacheEnv) (e : Envelope) (s : WState)
    (tid : Int)
    (hact : pyOrStr e.type e.action = some "todo_deleted")
    (hid : pyOrInt e.todoId e.todo_id = some tid) :
    process_notification env e s =
      (match update_all_todos_cache env
          (match findTodo s.store.todos tid with
           | some _ => { s with store := { s.store with
                                           todos := removeFirst s.store.todos tid } }
           | none => s) with
       | CacheResult.ok s2 => (PResult.ret true, s2)
       | CacheResult.err s2 => (PResult.raised, s2)) := by
  simp [process_notification, hact, hid]

theorem process_unknown_action (env : CacheEnv) (e : Envelope) (s : WState)
    (h1 : pyOrStr e.type e.action ≠ some "todo_created")
    (h2 : pyOrStr e.type e.action ≠ some "todo_updated")
    (h3 : pyOrStr e.type e.action ≠ some "todo_deleted") :
    process_notification env e s = (PResult.ret false, s) := by
  simp [process_notification, h1, h2, h3]

/-! Helper lemmas about the dict operations of `send_notification`. -/

theorem dget_dset_same (d : JDict) (k : String) (v : JVal) :
    dget (dset d k v) k = some v := by
  induction d with
  | nil => simp [dset, dget]
  | cons p rest ih =>
    obtain ⟨k', v'⟩ := p
    by_cases h : k' = k
    · simp [dset, dget, h]
    · simp [dset, dget, h, ih]

theorem dget_dset_other (d : JDict) (k' k : String) (v : JVal) (h : k' ≠ k) :
    dget (dset d k' v) k = dget d k := by
  induction d with
  | nil => simp [dset, dget, h]
  | cons p rest ih =>
    obtain ⟨k2, v2⟩ := p
    by_cases h2 : k2 = k'
    · subst h2
      simp [dset, dget, h]
    · simp only [dset, if_neg h2]
      by_cases h3 : k2 = k
      · simp [dget, h3]
      · simp [dget, h3, ih]

theorem dget_dupdate_not_mem (d u : JDict) (k : String)
    (h : ∀ p ∈ u, p.1 ≠ k) :
    dget (dupdate d u) k = dget d k := by
  induction u generalizing d with
  | nil => rfl
  | cons p rest ih =>
    obtain ⟨k', v'⟩ := p
    have step : dupdate d ((k', v') :: rest) = dupdate (dset d k' v') rest := rfl
    rw [step, ih (dset d k' v') (fun q hq => h q (List.mem_cons_of_mem _ hq)),
        dget_dset_other d k' k v' (h (k', v') (by simp))]

theorem dget_dupdate_mem (d u : JDict) (k : String) (v : JVal)
    (hnodup : (u.map Prod.fst).Nodup)
    (hv : dget u k = some v) :
    dget (dupdate d u) k = some v := by
  induction u generalizing d with
  | nil => cases hv
  | cons p rest ih =>
    obtain ⟨k', v'⟩ := p
    rw [dget] at hv
    simp only [List.map_cons, List.nodup_cons] at hnodup
    have step : dupdate d ((k', v') :: rest) = dupdate (dset d k' v') rest := rfl
    by_cases h : k' = k
    · rw [if_pos h] at hv
      obtain rfl := Option.some.inj hv
      have hnm : ∀ q ∈ rest, q.1 ≠ k := by
        intro q hq hqk
        apply hnodup.1
        rw [h, ← hqk]
        exact List.mem_map_of_mem Prod.fst hq
      rw [step, dget_dupdate_not_mem (dset d k' v') rest k hnm, ← h,
          dget_dset_same]
    · rw [if_neg h] at hv
      rw [step]
      exact ih (dset d k' v') hnodup.2 hv

/-! Claims. -/

/-- Claim C9 (confirmed): starting from the empty store, applying the
envelope `{todo_id: 1, action: "todo_created", title: "Buy milk"}`
succeeds, the store gains exactly one row with id 1, status "pending"
and priority "medium", and the cache snapshot holds exactly that row. -/
theorem C9_end_to_end_created :
    process_notification (fun _ => false)
      ⟨none, some 1, none, some "todo_created", some "Buy milk", none, none, none, none⟩
      ⟨⟨[], 1⟩, none, 0, 0⟩ =
    (PResult.ret true,
     ⟨⟨[⟨1, some "Buy milk", none, "pending", "medium", 0, 0, none⟩], 2⟩,
      some ⟨[⟨1, some "Buy milk", none, none, "medium", "pending", 0, 0⟩], 1⟩, 2, 1⟩) := by
  rfl

/-- Claim C8 (confirmed): the main loop deletes a message from the
queue exactly when `process_notification` returns `True` for it; a
`False` return or a raised exception leaves the message undeleted. -/
theorem C8_delete_iff_success (env : CacheEnv) (e : Envelope) (s : WState) :
    (worker_step env e s).2 = true ↔
      (process_notification env e s).1 = PResult.ret true := by
  unfold worker_step
  rcases h : process_notification env e s with ⟨r, s'⟩
  rcases r with b | _
  · cases b <;> simp
  · simp

/-- Counterexample to claim C5 as stated: the DELETE route itself
removes the row from the Entity Store (a direct producer-side store
write) before enqueueing the `todo_deleted` envelope. -/
theorem C5_counterexample :
    (delete_todo_route 1
      ⟨⟨[⟨1, some "a", none, "pending", "medium", 0, 0, none⟩], 2⟩,
       none, [], 0⟩).store.todos = [] ∧
    (⟨⟨[⟨1, some "a", none, "pending", "medium", 0, 0, none⟩], 2⟩,
      none, [], 0⟩ : ApiState).store.todos.length = 1 :=
  ⟨rfl, rfl⟩

/-- Claim C5 (amended): the create and update routes only enqueue — they
never write the store or the cache; the delete route never writes the
cache but does delete the target row from the store directly before
enqueueing. -/
theorem C5_producer_write_surface (data : JDict) (s : ApiState) (tid : Int) :
    ((create_todo_route data s).1.store = s.store ∧
     (create_todo_route data s).1.cache = s.cache) ∧
    (update_todo_route tid data s).store = s.store ∧
    (update_todo_route tid data s).cache = s.cache ∧
    (delete_todo_route tid s).cache = s.cache := by
  refine ⟨⟨rfl, rfl⟩, rfl, rfl, ?_⟩
  unfold delete_todo_route
  rcases h : findTodo s.store.todos tid with _ | t <;> simp [h]

/-- Claim C10 (confirmed): when `todo_data` passed to
`send_notification` contains a key named `todo_id`, `action` or
`timestamp`, `message.update(todo_data)` silently overwrites that
metadata field of the enqueued JSON body with the payload's value, so
the envelope can carry a todo_id/action differing from the arguments. -/
theorem C10_send_notification_metadata_overwritten
    (todo_id : Int) (action : String) (todo_data : JDict) (timestamp : Nat)
    (k : String) (v : JVal)
    (_hk : k = "todo_id" ∨ k = "action" ∨ k = "timestamp")
    (hnodup : (todo_data.map Prod.fst).Nodup)
    (hv : dget todo_data k = some v) :
    dget (send_notification_message todo_id action todo_data timestamp) k = some v := by
  have hne : todo_data ≠ [] := by
    intro hnil
    rw [hnil] at hv
    cases hv
  rw [send_notification_message]
  rw [if_neg hne]
  exact dget_dupdate_mem _ _ _ _ hnodup hv

/-- Witness for C10: `todo_data = {'todo_id': 999}` makes the enqueued
body's `todo_id` equal 999 although the argument was 1. -/
theorem C10_send_notification_metadata_overwritten_witness :
    (("todo_id" : String) = "todo_id" ∧
     (([("todo_id", JVal.int 999)] : JDict).map Prod.fst).Nodup ∧
     dget [("todo_id", JVal.int 999)] "todo_id" = some (JVal.int 999)) ∧
    dget (send_notification_message 1 "todo_created"
      [("todo_id", JVal.int 999)] 7) "todo_id" = some (JVal.int 999) :=
  ⟨⟨rfl, by decide, by decide⟩,
   C10_send_notification_metadata_overwritten 1 "todo_created"
     [("todo_id", JVal.int 999)] 7 "todo_id" (JVal.int 999)
     (Or.inl rfl) (by decide) (by decide)⟩

/-- Counterexample to claim C3 as stated: an `updated` envelope for an
absent todo_id is reported as failure (`False`, so the message is NOT
deleted), not as a no-op success. -/
theorem C3_counterexample :
    process_notification (fun _ => false)
      ⟨none, some 1, none, some "todo_updated", none, none, some "completed", none, none⟩
      ⟨⟨[], 1⟩, none, 0, 0⟩ =
      (PResult.ret false, ⟨⟨[], 1⟩, none, 0, 0⟩) ∧
    (worker_step (fun _ => false)
      ⟨none, some 1, none, some "todo_updated", none, none, some "completed", none, none⟩
      ⟨⟨[], 1⟩, none, 0, 0⟩).2 = false :=
  ⟨rfl, rfl⟩

/-- Claim C3 (amended): an `updated` envelope whose todo_id is absent
from the store performs no mutation but is reported as a FAILURE
(`process_notification` returns `False`): the message is not
acknowledged and stays on the queue. -/
theorem C3_update_missing_is_failure (env : CacheEnv) (e : Envelope) (s : WState)
    (tid : Int)
    (hact : pyOrStr e.type e.action = some "todo_updated")
    (hid : pyOrInt e.todoId e.todo_id = some tid)
    (hfind : findTodo s.store.todos tid = none) :
    process_notification env e s = (PResult.ret false, s) ∧
    (worker_step env e s).2 = false := by
  have h := process_updated_missing env e s tid hact hid hfind
  exact ⟨h, by simp [worker_step, h]⟩

/-- Witness for C3's amended theorem at a concrete empty store. -/
theorem C3_update_missing_is_failure_witness :
    (pyOrStr (none : Option String) (some "todo_updated") = some "todo_updated" ∧
     pyOrInt (none : Option Int) (some 1) = some 1 ∧
     findTodo ([] : List Todo) 1 = none) ∧
    process_notification (fun _ => false)
      ⟨none, some 1, none, some "todo_updated", none, none, none, none, none⟩
      ⟨⟨[], 1⟩, none, 3, 0⟩ = (PResult.ret false, ⟨⟨[], 1⟩, none, 3, 0⟩) ∧
    (worker_step (fun _ => false)
      ⟨none, some 1, none, some "todo_updated", none, none, none, none, none⟩
      ⟨⟨[], 1⟩, none, 3, 0⟩).2 = false :=
  ⟨⟨rfl, rfl, rfl⟩,
   (C3_update_missing_is_failure (fun _ => false)
     ⟨none, some 1, none, some "todo_updated", none, none, none, none, none⟩
     ⟨⟨[], 1⟩, none, 3, 0⟩ 1 rfl rfl rfl).1,
   (C3_update_missing_is_failure (fun _ => false)
     ⟨none, some 1, none, some "todo_updated", none, none, none, none, none⟩
     ⟨⟨[], 1⟩, none, 3, 0⟩ 1 rfl rfl rfl).2⟩

/-- Counterexample to claim C6 as stated: a `created` envelope with NO
title is nevertheless acknowledged (returns `True`, message deleted)
when the store already holds a row with the envelope's todo_id — the
duplicate guard runs before title validation. -/
theorem C6_counterexample :
    process_notification (fun _ => false)
      ⟨none, some 1, none, some "todo_created", none, none, none, none, none⟩
      ⟨⟨[⟨1, some "a", none, "pending", "medium", 0, 0, none⟩], 2⟩, none, 5, 0⟩ =
      (PResult.ret true,
       ⟨⟨[⟨1, some "a", none, "pending", "medium", 0, 0, none⟩], 2⟩, none, 5, 0⟩) ∧
    (worker_step (fun _ => false)
      ⟨none, some 1, none, some "todo_created", none, none, none, none, none⟩
      ⟨⟨[⟨1, some "a", none, "pending", "medium", 0, 0, none⟩], 2⟩, none, 5, 0⟩).2
      = true :=
  ⟨rfl, rfl⟩

/-- Claim C6 (amended): an envelope failing validation — `created` with
missing/empty title, or an unrecognized action — leaves the whole state
exactly unchanged, and the message is acknowledged only in the one
carve-out where the store already holds the envelope's todo_id (the
duplicate guard fires before title validation). -/
theorem C6_validation_rejects (env : CacheEnv) (e : Envelope) (s : WState)
    (hbad : (pyOrStr e.type e.action = some "todo_created" ∧
             (e.title = none ∨ e.title = some "")) ∨
            (pyOrStr e.type e.action ≠ some "todo_created" ∧
             pyOrStr e.type e.action ≠ some "todo_updated" ∧
             pyOrStr e.type e.action ≠ some "todo_deleted")) :
    (process_notification env e s).2 = s ∧
    ((worker_step env e s).2 = true →
     ∃ tid, pyOrInt e.todoId e.todo_id = some tid ∧
            findTodo s.store.todos tid ≠ none) := by
  rcases hbad with ⟨hact, htitle⟩ | ⟨h1, h2, h3⟩
  · rcases hid : pyOrInt e.todoId e.todo_id with _ | tid
    · have h := process_created_no_id env e s hact hid
      exact ⟨by rw [h], by simp [worker_step, h]⟩
    · rcases hfind : findTodo s.store.todos tid with _ | todo
      · have h := process_created_no_title env e s tid hact hid hfind htitle
        exact ⟨by rw [h], by simp [worker_step, h]⟩
      · have h := process_created_dup env e s tid todo hact hid hfind
        exact ⟨by rw [h], fun _ => ⟨tid, rfl, by simp [hfind]⟩⟩
  · have h := process_unknown_action env e s h1 h2 h3
    exact ⟨by rw [h], by simp [worker_step, h]⟩

/-- Witness for C6's amended theorem: an unrecognized action on the
empty store. -/
theorem C6_validation_rejects_witness :
    (pyOrStr (none : Option String) (some "bogus") ≠ some "todo_created" ∧
     pyOrStr (none : Option String) (some "bogus") ≠ some "todo_updated" ∧
     pyOrStr (none : Option String) (some "bogus") ≠ some "todo_deleted") ∧
    (process_notification (fun _ => false)
      ⟨none, some 1, none, some "bogus", none, none, none, none, none⟩
      ⟨⟨[], 1⟩, none, 0, 0⟩).2 = ⟨⟨[], 1⟩, none, 0, 0⟩ ∧
    ((worker_step (fun _ => false)
      ⟨none, some 1, none, some "bogus", none, none, none, none, none⟩
      ⟨⟨[], 1⟩, none, 0, 0⟩).2 = true →
     ∃ tid, pyOrInt (none : Option Int) (some 1) = some tid ∧
            findTodo ([] : List Todo) tid ≠ none) :=
  ⟨⟨by decide, by decide, by decide⟩,
   (C6_validation_rejects (fun _ => false)
     ⟨none, some 1, none, some "bogus", none, none, none, none, none⟩
     ⟨⟨[], 1⟩, none, 0, 0⟩
     (Or.inr ⟨by decide, by decide, by decide⟩)).1,
   (C6_validation_rejects (fun _ => false)
     ⟨none, some 1, none, some "bogus", none, none, none, none, none⟩
     ⟨⟨[], 1⟩, none, 0, 0⟩
     (Or.inr ⟨by decide, by decide, by decide⟩)).2⟩

/-! Further helpers for C1, C2, C4, C7. -/

theorem findTodo_insert (st : Store) (td : TodoData) (t : Nat)
    (h : findTodo st.todos st.nextId = none) :
    findTodo (st.insert td t).todos st.nextId =
      some ⟨st.nextId, td.title, td.description, td.status, td.priority,
            t, t, td.due_date⟩ := by
  unfold Store.insert
  rw [findTodo_append_none _ _ _ h]
  simp

/-- The post-mutation `update_all_todos_cache` call never changes the
store, whichever way the apply branch ends. -/
theorem process_match_store (env : CacheEnv) (s1 : WState) :
    ((match update_all_todos_cache env s1 with
      | CacheResult.ok s2 => (PResult.ret true, s2)
      | CacheResult.err s2 => (PResult.raised, s2)) : PResult × WState).2.store
      = s1.store := by
  rcases h : update_all_todos_cache env s1 with s2 | s2 <;>
  · have hst := update_cache_store env s1
    rw [h] at hst
    simpa using hst

/-- A refresh that returned normally left a snapshot matching the
store, stamped strictly later than any snapshot present before the
whole apply began. -/
theorem cache_ok_gives_fresh (env : CacheEnv) (s s1 s2 : WState)
    (hok : update_all_todos_cache env s1 = CacheResult.ok s2)
    (hnow : s.now ≤ s1.now)
    (hwf : ∀ c0, s.cache = some c0 → c0.cached_at < s.now) :
    ∃ c, s2.cache = some c ∧ c.todos = s2.store.todos.map todo_to_dict ∧
         ∀ c0, s.cache = some c0 → c0.cached_at < c.cached_at := by
  obtain ⟨hstore, t, hc, ht1, _⟩ := update_cache_ok_spec env s1 s2 hok
  refine ⟨⟨s1.store.todos.map todo_to_dict, t⟩, hc, by rw [hstore], ?_⟩
  intro c0 h0
  exact lt_of_lt_of_le (hwf c0 h0) (le_trans hnow ht1)

/-- Counterexample to claim C1 as stated: on the empty store, the
`created` envelope with todo_id 5 applied twice creates TWO rows (the
store assigns ids 1 then 2, so the duplicate guard's lookup of id 5
never matches), and the second apply still reports success. -/
theorem C1_counterexample :
    (process_notification (fun _ => false)
       ⟨none, some 5, none, some "todo_created", some "x", none, none, none, none⟩
       ⟨⟨[], 1⟩, none, 0, 0⟩).2.store.todos.length = 1 ∧
    (process_notification (fun _ => false)
       ⟨none, some 5, none, some "todo_created", some "x", none, none, none, none⟩
       (process_notification (fun _ => false)
          ⟨none, some 5, none, some "todo_created", some "x", none, none, none, none⟩
          ⟨⟨[], 1⟩, none, 0, 0⟩).2).2.store.todos.length = 2 ∧
    (process_notification (fun _ => false)
       ⟨none, some 5, none, some "todo_created", some "x", none, none, none, none⟩
       (process_notification (fun _ => false)
          ⟨none, some 5, none, some "todo_created", some "x", none, none, none, none⟩
          ⟨⟨[], 1⟩, none, 0, 0⟩).2).1 = PResult.ret true :=
  ⟨rfl, rfl, rfl⟩

/-- Claim C1 (amended): applying the same `created` envelope twice
leaves the store exactly as after one apply — and the second apply is a
no-op success whenever the first one succeeded — PROVIDED the
envelope's todo_id either already names an existing row or equals the
id the store will assign (`nextId`); otherwise a second row can be
created (see the counterexample). -/
theorem C1_created_twice_idempotent (env : CacheEnv) (e : Envelope) (s : WState)
    (tid : Int)
    (hact : pyOrStr e.type e.action = some "todo_created")
    (hid : pyOrInt e.todoId e.todo_id = some tid)
    (hmatch : findTodo s.store.todos tid ≠ none ∨ tid = s.store.nextId) :
    (process_notification env e (process_notification env e s).2).2.store =
      (process_notification env e s).2.store ∧
    ((process_notification env e s).1 = PResult.ret true →
     (process_notification env e (process_notification env e s).2).1
       = PResult.ret true) := by
  rcases hfind : findTodo s.store.todos tid with _ | todo
  · rcases hmatch with hsome | hnext
    · exact absurd hfind hsome
    · by_cases htitle : e.title = none ∨ e.title = some ""
      · have h1 := process_created_no_title env e s tid hact hid hfind htitle
        rw [h1]
        simp only []
        rw [h1]
        simp
      · have h1 := process_created_new env e s tid hact hid hfind htitle
        subst hnext
        rcases hres : update_all_todos_cache env
            { s with store := s.store.insert (extract_todo_data e) s.now,
                     now := s.now + 1 } with s2 | s2
        · have hfirst : process_notification env e s = (PResult.ret true, s2) := by
            rw [h1, hres]
          have hstore : s2.store = s.store.insert (extract_todo_data e) s.now := by
            have hst := update_cache_store env
              { s with store := s.store.insert (extract_todo_data e) s.now,
                       now := s.now + 1 }
            rw [hres] at hst
            exact hst
          have hfind2 : findTodo s2.store.todos s.store.nextId =
              some ⟨s.store.nextId, (extract_todo_data e).title,
                    (extract_todo_data e).description,
                    (extract_todo_data e).status, (extract_todo_data e).priority,
                    s.now, s.now, (extract_todo_data e).due_date⟩ := by
            rw [hstore]
            exact findTodo_insert s.store (extract_todo_data e) s.now hfind
          have hsecond := process_created_dup env e s2 s.store.nextId _ hact hid hfind2
          rw [hfirst]
          simp only []
          rw [hsecond]
          simp
        · have hfirst : process_notification env e s = (PResult.raised, s2) := by
            rw [h1, hres]
          have hstore : s2.store = s.store.insert (extract_todo_data e) s.now := by
            have hst := update_cache_store env
              { s with store := s.store.insert (extract_todo_data e) s.now,
                       now := s.now + 1 }
            rw [hres] at hst
            exact hst
          have hfind2 : findTodo s2.store.todos s.store.nextId =
              some ⟨s.store.nextId, (extract_todo_data e).title,
                    (extract_todo_data e).description,
                    (extract_todo_data e).status, (extract_todo_data e).priority,
                    s.now, s.now, (extract_todo_data e).due_date⟩ := by
            rw [hstore]
            exact findTodo_insert s.store (extract_todo_data e) s.now hfind
          have hsecond := process_created_dup env e s2 s.store.nextId _ hact hid hfind2
          rw [hfirst]
          simp only []
          rw [hsecond]
          simp
  · have h1 := process_created_dup env e s tid todo hact hid hfind
    rw [h1]
    simp only []
    rw [h1]
    simp

/-- Witness for C1's amended theorem: empty store, todo_id 1 = nextId. -/
theorem C1_created_twice_idempotent_witness :
    (pyOrStr (none : Option String) (some "todo_created") = some "todo_created" ∧
     pyOrInt (none : Option Int) (some 1) = some 1 ∧
     ((1 : Int) = (⟨⟨[], 1⟩, none, 0, 0⟩ : WState).store.nextId)) ∧
    (process_notification (fun _ => false)
       ⟨none, some 1, none, some "todo_created", some "Buy milk", none, none, none, none⟩
       (process_notification (fun _ => false)
          ⟨none, some 1, none, some "todo_created", some "Buy milk", none, none, none, none⟩
          ⟨⟨[], 1⟩, none, 0, 0⟩).2).2.store =
      (process_notification (fun _ => false)
         ⟨none, some 1, none, some "todo_created", some "Buy milk", none, none, none, none⟩
         ⟨⟨[], 1⟩, none, 0, 0⟩).2.store ∧
    ((process_notification (fun _ => false)
        ⟨none, some 1, none, some "todo_created", some "Buy milk", none, none, none, none⟩
        ⟨⟨[], 1⟩, none, 0, 0⟩).1 = PResult.ret true →
     (process_notification (fun _ => false)
        ⟨none, some 1, none, some "todo_created", some "Buy milk", none, none, none, none⟩
        (process_notification (fun _ => false)
           ⟨none, some 1, none, some "todo_created", some "Buy milk", none, none, none, none⟩
           ⟨⟨[], 1⟩, none, 0, 0⟩).2).1 = PResult.ret true) :=
  ⟨⟨rfl, rfl, rfl⟩,
   (C1_created_twice_idempotent (fun _ => false)
      ⟨none, some 1, none, some "todo_created", some "Buy milk", none, none, none, none⟩
      ⟨⟨[], 1⟩, none, 0, 0⟩ 1 rfl rfl (Or.inr rfl)).1,
   (C1_created_twice_idempotent (fun _ => false)
      ⟨none, some 1, none, some "todo_created", some "Buy milk", none, none, none, none⟩
      ⟨⟨[], 1⟩, none, 0, 0⟩ 1 rfl rfl (Or.inr rfl)).2⟩

/-- Counterexample to claim C2 as stated: the duplicate-`created`
branch reports success yet performs no cache refresh at all — here the
cache key is absent before the apply and still absent after it, so no
snapshot with a fresh `_cached_at` exists. -/
theorem C2_counterexample :
    process_notification (fun _ => false)
      ⟨none, some 1, none, some "todo_created", some "x", none, none, none, none⟩
      ⟨⟨[⟨1, some "a", none, "pending", "medium", 0, 0, none⟩], 2⟩, none, 5, 0⟩ =
    (PResult.ret true,
     ⟨⟨[⟨1, some "a", none, "pending", "medium", 0, 0, none⟩], 2⟩, none, 5, 0⟩) :=
  rfl

/-- Claim C2 (amended): after every apply reported successful EXCEPT
the duplicate-`created` no-op (which returns success without touching
the cache), the `all_todos` snapshot exists, its todos equal the
store's current contents exactly, and its `_cached_at` is strictly
newer than that of any snapshot present before the apply. -/
theorem C2_cache_fresh_after_success (env : CacheEnv) (e : Envelope) (s : WState)
    (hwf : ∀ c0, s.cache = some c0 → c0.cached_at < s.now)
    (hnotdup : ¬(pyOrStr e.type e.action = some "todo_created" ∧
                ∃ tid, pyOrInt e.todoId e.todo_id = some tid ∧
                       findTodo s.store.todos tid ≠ none))
    (hsucc : (process_notification env e s).1 = PResult.ret true) :
    ∃ c, (process_notification env e s).2.cache = some c ∧
         c.todos = (process_notification env e s).2.store.todos.map todo_to_dict ∧
         ∀ c0, s.cache = some c0 → c0.cached_at < c.cached_at := by
  by_cases hc : pyOrStr e.type e.action = some "todo_created"
  · rcases hid : pyOrInt e.todoId e.todo_id with _ | tid
    · have h := process_created_no_id env e s hc hid
      rw [h] at hsucc
      cases hsucc
    · rcases hfind : findTodo s.store.todos tid with _ | todo
      · by_cases htitle : e.title = none ∨ e.title = some ""
        · have h := process_created_no_title env e s tid hc hid hfind htitle
          rw [h] at hsucc
          cases hsucc
        · have h := process_created_new env e s tid hc hid hfind htitle
          rcases hres : update_all_todos_cache env
              { s with store := s.store.insert (extract_todo_data e) s.now,
                       now := s.now + 1 } with s2 | s2
          · have hfirst : process_notification env e s = (PResult.ret true, s2) := by
              rw [h, hres]
            rw [hfirst]
            exact cache_ok_gives_fresh env s _ s2 hres (by dsimp only; omega) hwf
          · have hfirst : process_notification env e s = (PResult.raised, s2) := by
              rw [h, hres]
            rw [hfirst] at hsucc
            cases hsucc
      · exact absurd ⟨hc, tid, hid, by simp [hfind]⟩ hnotdup
  · by_cases hu : pyOrStr e.type e.action = some "todo_updated"
    · rcases hid : pyOrInt e.todoId e.todo_id with _ | tid
      · have h : process_notification env e s = (PResult.raised, s) := by
          simp [process_notification, hc, hu, hid]
        rw [h] at hsucc
        cases hsucc
      · rcases hfind : findTodo s.store.todos tid with _ | todo
        · have h := process_updated_missing env e s tid hu hid hfind
          rw [h] at hsucc
          cases hsucc
        · have h := process_updated_found env e s tid todo hu hid hfind
          by_cases heq : applyTodoData (extract_todo_data e) todo = todo
          · rw [if_pos heq] at h
            rcases hres : update_all_todos_cache env s with s2 | s2
            · have hfirst : process_notification env e s = (PResult.ret true, s2) := by
                rw [h, hres]
              rw [hfirst]
              exact cache_ok_gives_fresh env s s s2 hres le_rfl hwf
            · have hfirst : process_notification env e s = (PResult.raised, s2) := by
                rw [h, hres]
              rw [hfirst] at hsucc
              cases hsucc
          · rw [if_neg heq] at h
            by_cases ht : (applyTodoData (extract_todo_data e) todo).title = none
            · rw [if_pos ht] at h
              rw [h] at hsucc
              cases hsucc
            · rw [if_neg ht] at h
              rcases hres : update_all_todos_cache env
                  { s with
                    store := { s.store with
                               todos := replaceFirst s.store.todos tid
                                 { applyTodoData (extract_todo_data e) todo with
                                   updated_at := s.now } },
                    now := s.now + 1 } with s2 | s2
              · have hfirst : process_notification env e s = (PResult.ret true, s2) := by
                  rw [h, hres]
                rw [hfirst]
                refine cache_ok_gives_fresh env s _ s2 hres ?_ hwf
                dsimp only
                omega
              · have hfirst : process_notification env e s = (PResult.raised, s2) := by
                  rw [h, hres]
                rw [hfirst] at hsucc
                cases hsucc
    · by_cases hd : pyOrStr e.type e.action = some "todo_deleted"
      · rcases hid : pyOrInt e.todoId e.todo_id with _ | tid
        · have h : process_notification env e s = (PResult.raised, s) := by
            simp [process_notification, hc, hu, hd, hid]
          rw [h] at hsucc
          cases hsucc
        · have h := process_deleted_norm env e s tid hd hid
          rcases hres : update_all_todos_cache env
              (match findTodo s.store.todos tid with
               | some _ => { s with store := { s.store with
                                               todos := removeFirst s.store.todos tid } }
               | none => s) with s2 | s2
          · have hfirst : process_notification env e s = (PResult.ret true, s2) := by
              rw [h, hres]
            rw [hfirst]
            refine cache_ok_gives_fresh env s _ s2 hres ?_ hwf
            rcases findTodo s.store.todos tid with _ | t <;> simp
          · have hfirst : process_notification env e s = (PResult.raised, s2) := by
              rw [h, hres]
            rw [hfirst] at hsucc
            cases hsucc
      · have h := process_unknown_action env e s hc hu hd
        rw [h] at hsucc
        cases hsucc

/-- Witness for C2's amended theorem: a no-op `deleted` apply on the
empty store still rebuilds the cache. -/
theorem C2_cache_fresh_after_success_witness :
    ((⟨⟨[], 1⟩, none, 0, 0⟩ : WState).cache = none ∧
     pyOrStr (none : Option String) (some "todo_deleted") ≠ some "todo_created" ∧
     (process_notification (fun _ => false)
        ⟨none, some 1, none, some "todo_deleted", none, none, none, none, none⟩
        ⟨⟨[], 1⟩, none, 0, 0⟩).1 = PResult.ret true) ∧
    ∃ c, (process_notification (fun _ => false)
            ⟨none, some 1, none, some "todo_deleted", none, none, none, none, none⟩
            ⟨⟨[], 1⟩, none, 0, 0⟩).2.cache = some c ∧
         c.todos = (process_notification (fun _ => false)
                      ⟨none, some 1, none, some "todo_deleted", none, none, none, none, none⟩
                      ⟨⟨[], 1⟩, none, 0, 0⟩).2.store.todos.map todo_to_dict ∧
         ∀ c0, (⟨⟨[], 1⟩, none, 0, 0⟩ : WState).cache = some c0 →
               c0.cached_at < c.cached_at :=
  ⟨⟨rfl, by decide, rfl⟩,
   C2_cache_fresh_after_success (fun _ => false)
     ⟨none, some 1, none, some "todo_deleted", none, none, none, none, none⟩
     ⟨⟨[], 1⟩, none, 0, 0⟩
     (fun c0 h0 => by cases h0)
     (fun hdup => absurd hdup.1 (by decide))
     rfl⟩

/-- Counterexample to claim C4 as stated: updating row 1 (title
"Buy milk", description "d", priority "high") with an envelope carrying
only `title: "Buy milk"` and `status: "completed"` succeeds but erases
description to None and resets priority to "medium" — the attributes
absent from the payload are NOT left unchanged. -/
theorem C4_counterexample :
    (process_notification (fun _ => false)
       ⟨none, some 1, none, some "todo_updated", some "Buy milk", none,
        some "completed", none, none⟩
       ⟨⟨[⟨1, some "Buy milk", some "d", "pending", "high", 0, 0, none⟩], 2⟩,
        none, 5, 0⟩).1 = PResult.ret true ∧
    (process_notification (fun _ => false)
       ⟨none, some 1, none, some "todo_updated", some "Buy milk", none,
        some "completed", none, none⟩
       ⟨⟨[⟨1, some "Buy milk", some "d", "pending", "high", 0, 0, none⟩], 2⟩,
        none, 5, 0⟩).2.store.todos =
      [⟨1, some "Buy milk", none, "completed", "medium", 0, 5, none⟩] :=
  ⟨rfl, rfl⟩

/-- Evaluation supporting C4's amendment: an update whose payload lacks
`title` assigns title=None, so the commit violates the NOT NULL
constraint and raises — the row keeps all its old attributes and the
message is not acknowledged, instead of only `status` being updated. -/
theorem C4_missing_title_raises_eval :
    process_notification (fun _ => false)
      ⟨none, some 1, none, some "todo_updated", none, none, some "completed", none, none⟩
      ⟨⟨[⟨1, some "Buy milk", some "d", "pending", "high", 0, 0, none⟩], 2⟩,
       none, 5, 0⟩ =
      (PResult.raised,
       ⟨⟨[⟨1, some "Buy milk", some "d", "pending", "high", 0, 0, none⟩], 2⟩,
        none, 5, 0⟩) ∧
    (worker_step (fun _ => false)
      ⟨none, some 1, none, some "todo_updated", none, none, some "completed", none, none⟩
      ⟨⟨[⟨1, some "Buy milk", some "d", "pending", "high", 0, 0, none⟩], 2⟩,
       none, 5, 0⟩).2 = false :=
  ⟨rfl, rfl⟩

/-- Claim C4 (amended): an `updated` apply on an existing row assigns
ALL five payload attributes, not only the ones present. When the
payload lacks `title` (and some column value actually changes), the
flush writes title=None, violating the NOT NULL constraint: the commit
raises, the row and the whole state stay unchanged, and the message is
not acknowledged. When the payload carries a title, the apply succeeds:
description and due_date become the payload values (None when absent),
status and priority get the payload values or the defaults
"pending"/"medium", id and created_at are kept, updated_at is set to
the apply time when anything changed (the row untouched when nothing
changed), and every other row of the store is left exactly as it was. -/
theorem C4_update_overwrites_every_attribute (env : CacheEnv) (e : Envelope)
    (s : WState) (tid : Int) (todo : Todo)
    (hact : pyOrStr e.type e.action = some "todo_updated")
    (hid : pyOrInt e.todoId e.todo_id = some tid)
    (hfind : findTodo s.store.todos tid = some todo) :
    (e.title = none → applyTodoData (extract_todo_data e) todo ≠ todo →
     process_notification env e s = (PResult.raised, s)) ∧
    (∀ t, e.title = some t →
     ∃ l1 l2 new,
       s.store.todos = l1 ++ todo :: l2 ∧ (∀ u ∈ l1, u.id ≠ tid) ∧
       (process_notification env e s).2.store.todos = l1 ++ new :: l2 ∧
       new.id = todo.id ∧ new.created_at = todo.created_at ∧
       new.title = some t ∧ new.description = e.description ∧
       new.status = e.status.getD "pending" ∧
       new.priority = e.priority.getD "medium" ∧
       new.due_date = e.due_date ∧
       (applyTodoData (extract_todo_data e) todo = todo → new = todo) ∧
       (applyTodoData (extract_todo_data e) todo ≠ todo →
        new.updated_at = s.now)) := by
  have h := process_updated_found env e s tid todo hact hid hfind
  constructor
  · intro htn hne
    rw [if_neg hne] at h
    have ht : (applyTodoData (extract_todo_data e) todo).title = none := htn
    rw [if_pos ht] at h
    exact h
  · intro t htt
    have htne : (applyTodoData (extract_todo_data e) todo).title ≠ none := by
      show e.title ≠ none
      rw [htt]
      exact fun hx => Option.noConfusion hx
    by_cases heq : applyTodoData (extract_todo_data e) todo = todo
    · obtain ⟨l1, l2, hl, hl1, _, _⟩ :=
        findTodo_split s.store.todos tid todo todo hfind
      refine ⟨l1, l2, todo, hl, hl1, ?_, rfl, rfl, ?_, ?_, ?_, ?_, ?_,
              fun _ => rfl, fun hne => absurd heq hne⟩
      · rw [h]
        rw [if_pos heq]
        rw [process_match_store]
        exact hl
      · rw [← heq]
        exact htt
      · have := congrArg Todo.description heq
        simpa [applyTodoData, extract_todo_data] using this.symm
      · have := congrArg Todo.status heq
        simpa [applyTodoData, extract_todo_data] using this.symm
      · have := congrArg Todo.priority heq
        simpa [applyTodoData, extract_todo_data] using this.symm
      · have := congrArg Todo.due_date heq
        simpa [applyTodoData, extract_todo_data] using this.symm
    · obtain ⟨l1, l2, hl, hl1, _, hrep⟩ :=
        findTodo_split s.store.todos tid todo
          { applyTodoData (extract_todo_data e) todo with updated_at := s.now } hfind
      refine ⟨l1, l2,
              { applyTodoData (extract_todo_data e) todo with updated_at := s.now },
              hl, hl1, ?_, rfl, rfl, htt, rfl, rfl, rfl, rfl,
              fun hyes => absurd hyes heq, fun _ => rfl⟩
      rw [h]
      rw [if_neg heq]
      rw [if_neg htne]
      rw [process_match_store]
      exact hrep

/-- Witness for C4's amended theorem at the counterexample input (the
payload carries a title, so the update commits). -/
theorem C4_update_overwrites_every_attribute_witness :
    (pyOrStr (none : Option String) (some "todo_updated") = some "todo_updated" ∧
     pyOrInt (none : Option Int) (some 1) = some 1 ∧
     findTodo [⟨1, some "Buy milk", some "d", "pending", "high", 0, 0, none⟩] 1 =
       some ⟨1, some "Buy milk", some "d", "pending", "high", 0, 0, none⟩) ∧
    ((some "Buy milk" : Option String) = none →
     applyTodoData
       (extract_todo_data
         ⟨none, some 1, none, some "todo_updated", some "Buy milk", none,
          some "completed", none, none⟩)
       ⟨1, some "Buy milk", some "d", "pending", "high", 0, 0, none⟩ ≠
       ⟨1, some "Buy milk", some "d", "pending", "high", 0, 0, none⟩ →
     process_notification (fun _ => false)
       ⟨none, some 1, none, some "todo_updated", some "Buy milk", none,
        some "completed", none, none⟩
       ⟨⟨[⟨1, some "Buy milk", some "d", "pending", "high", 0, 0, none⟩], 2⟩,
        none, 5, 0⟩ =
       (PResult.raised,
        ⟨⟨[⟨1, some "Buy milk", some "d", "pending", "high", 0, 0, none⟩], 2⟩,
         none, 5, 0⟩)) ∧
    (∀ t, (some "Buy milk" : Option String) = some t →
     ∃ l1 l2 new,
       [(⟨1, some "Buy milk", some "d", "pending", "high", 0, 0, none⟩ : Todo)] =
         l1 ++ (⟨1, some "Buy milk", some "d", "pending", "high", 0, 0, none⟩ : Todo) :: l2 ∧
       (∀ u ∈ l1, u.id ≠ 1) ∧
       (process_notification (fun _ => false)
          ⟨none, some 1, none, some "todo_updated", some "Buy milk", none,
           some "completed", none, none⟩
          ⟨⟨[⟨1, some "Buy milk", some "d", "pending", "high", 0, 0, none⟩], 2⟩,
           none, 5, 0⟩).2.store.todos = l1 ++ new :: l2 ∧
       new.id = 1 ∧ new.created_at = 0 ∧
       new.title = some t ∧ new.description = none ∧
       new.status = "completed" ∧ new.priority = "medium" ∧ new.due_date = none ∧
       (applyTodoData
          (extract_todo_data
            ⟨none, some 1, none, some "todo_updated", some "Buy milk", none,
             some "completed", none, none⟩)
          ⟨1, some "Buy milk", some "d", "pending", "high", 0, 0, none⟩ =
          ⟨1, some "Buy milk", some "d", "pending", "high", 0, 0, none⟩ →
        new = ⟨1, some "Buy milk", some "d", "pending", "high", 0, 0, none⟩) ∧
       (applyTodoData
          (extract_todo_data
            ⟨none, some 1, none, some "todo_updated", some "Buy milk", none,
             some "completed", none, none⟩)
          ⟨1, some "Buy milk", some "d", "pending", "high", 0, 0, none⟩ ≠
          ⟨1, some "Buy milk", some "d", "pending", "high", 0, 0, none⟩ →
        new.updated_at = 5)) :=
  ⟨⟨rfl, rfl, rfl⟩,
   (C4_update_overwrites_every_attribute (fun _ => false)
      ⟨none, some 1, none, some "todo_updated", some "Buy milk", none,
       some "completed", none, none⟩
      ⟨⟨[⟨1, some "Buy milk", some "d", "pending", "high", 0, 0, none⟩], 2⟩,
       none, 5, 0⟩
      1 ⟨1, some "Buy milk", some "d", "pending", "high", 0, 0, none⟩
      rfl rfl rfl).1,
   (C4_update_overwrites_every_attribute (fun _ => false)
      ⟨none, some 1, none, some "todo_updated", some "Buy milk", none,
       some "completed", none, none⟩
      ⟨⟨[⟨1, some "Buy milk", some "d", "pending", "high", 0, 0, none⟩], 2⟩,
       none, 5, 0⟩
      1 ⟨1, some "Buy milk", some "d", "pending", "high", 0, 0, none⟩
      rfl rfl rfl).2⟩

/-- Counterexample-style evaluation supporting claim C7: with every
Redis set failing, the `created` apply raises after exactly 3 attempts,
the inserted row stays committed, and the message is not deleted. -/
theorem C7_all_attempts_fail_eval :
    process_notification (fun _ => true)
      ⟨none, some 1, none, some "todo_created", some "Buy milk", none, none, none, none⟩
      ⟨⟨[], 1⟩, none, 0, 0⟩ =
    (PResult.raised,
     ⟨⟨[⟨1, some "Buy milk", none, "pending", "medium", 0, 0, none⟩], 2⟩,
      none, 6, 3⟩) :=
  rfl

/-- Claim C7 (confirmed): the cache refresh is retried up to the fixed
bound of 3 attempts (1-tick `sleep` between attempts); when all three
`redis_client.set` calls fail, the exception propagates out of
`process_notification` — so the message is not deleted — while the row
inserted and committed before the refresh remains in the store, and
exactly 3 set attempts were consumed. -/
theorem C7_cache_retry_bound (env : CacheEnv) (e : Envelope) (s : WState)
    (tid : Int)
    (hact : pyOrStr e.type e.action = some "todo_created")
    (hid : pyOrInt e.todoId e.todo_id = some tid)
    (hfind : findTodo s.store.todos tid = none)
    (htitle : ¬(e.title = none ∨ e.title = some ""))
    (h1 : env s.cacheSetAttempts = true)
    (h2 : env (s.cacheSetAttempts + 1) = true)
    (h3 : env (s.cacheSetAttempts + 2) = true) :
    process_notification env e s =
      (PResult.raised,
       { store := s.store.insert (extract_todo_data e) s.now, cache := none,
         now := s.now + 6, cacheSetAttempts := s.cacheSetAttempts + 3 }) ∧
    (worker_step env e s).2 = false := by
  have hb := process_created_new env e s tid hact hid hfind htitle
  have hfail := update_cache_all_fail env
    { s with store := s.store.insert (extract_todo_data e) s.now, now := s.now + 1 }
    h1 h2 h3
  have hmain : process_notification env e s =
      (PResult.raised,
       { store := s.store.insert (extract_todo_data e) s.now, cache := none,
         now := s.now + 6, cacheSetAttempts := s.cacheSetAttempts + 3 }) := by
    rw [hb, hfail]
  exact ⟨hmain, by simp [worker_step, hmain]⟩

/-- Witness for C7 on the empty store with an always-failing cache. -/
theorem C7_cache_retry_bound_witness :
    (pyOrStr (none : Option String) (some "todo_created") = some "todo_created" ∧
     pyOrInt (none : Option Int) (some 1) = some 1 ∧
     findTodo ([] : List Todo) 1 = none ∧
     (fun _ : Nat => true) 0 = true ∧ (fun _ : Nat => true) 1 = true ∧
     (fun _ : Nat => true) 2 = true) ∧
    process_notification (fun _ => true)
      ⟨none, some 1, none, some "todo_created", some "Buy milk", none, none, none, none⟩
      ⟨⟨[], 1⟩, none, 0, 0⟩ =
      (PResult.raised,
       ⟨⟨[⟨1, some "Buy milk", none, "pending", "medium", 0, 0, none⟩], 2⟩,
        none, 6, 3⟩) ∧
    (worker_step (fun _ => true)
      ⟨none, some 1, none, some "todo_created", some "Buy milk", none, none, none, none⟩
      ⟨⟨[], 1⟩, none, 0, 0⟩).2 = false :=
  ⟨⟨rfl, rfl, rfl, rfl, rfl, rfl⟩,
   (C7_cache_retry_bound (fun _ => true)
      ⟨none, some 1, none, some "todo_created", some "Buy milk", none, none, none, none⟩
      ⟨⟨[], 1⟩, none, 0, 0⟩ 1 rfl rfl rfl (by decide) rfl rfl rfl).1,
   (C7_cache_retry_bound (fun _ => true)
      ⟨none, some 1, none, some "todo_created", some "Buy milk", none, none, none, none⟩
      ⟨⟨[], 1⟩, none, 0, 0⟩ 1 rfl rfl rfl (by decide) rfl rfl rfl).2⟩

end TodoPipeline
